import Mathlib

/-!
Verification of the rockets control-and-integration core.

The definitions below are a shallow embedding of `controller.py` and
`simulator.py`. All Python floats are modelled as exact rationals; the
IEEE outcomes of `np.inf * x` (positive infinity, negative infinity, NaN)
are modelled by the symbolic `Signal` type. Fallible operations (the
derivative division in `PIDController.tick`, the membership assertion in
`Rocket._set_thrust`) return `Option`, with `none` for the raised
exception.
-/

namespace Rockets

/-- Symbolic value of an unbounded control signal: a finite rational, one of
the two infinities, or NaN. -/
inductive Signal where
  | finite (q : ℚ)
  | posInf
  | negInf
  | nan
deriving DecidableEq

/-- IEEE semantics of `np.inf * e` for a finite `e`: positive infinity for
positive `e`, negative infinity for negative `e`, NaN for `e = 0`. -/
def infMul (e : ℚ) : Signal :=
  if 0 < e then Signal.posInf
  else if e < 0 then Signal.negInf
  else Signal.nan

namespace Controller

/-- `Controller._error`: the error between the process value and the
setpoint. -/
def error (setpoint process_variable : ℚ) : ℚ :=
  setpoint - process_variable

end Controller

namespace OnOffController

/-- `OnOffController.tick`: returns `np.inf * error`; `dt` is unused. -/
def tick (setpoint process_var : ℚ) : Signal :=
  infMul (Controller.error setpoint process_var)

end OnOffController

/-- The mutable state of a `PIDController` together with its immutable
configuration (`setpoint`, weight constants `kp`, `ki`, `di`). -/
structure PIDState where
  setpoint : ℚ
  kp : ℚ
  ki : ℚ
  di : ℚ
  error_previous : ℚ
  error_integral : ℚ
deriving DecidableEq

namespace PIDController

/-- `PIDController.tick`, with the division-by-zero failure made explicit:
the first component is the control output (`none` when `dt = 0` and the
derivative division raises ZeroDivisionError), the second component is the
controller state as mutated up to the point the method returns or raises. -/
def tick (s : PIDState) (process_var dt : ℚ) : Option ℚ × PIDState :=
  let e := Controller.error s.setpoint process_var
  let integral := s.error_integral + e * dt
  if dt = 0 then
    (none, { s with error_integral := integral })
  else
    let derivative := (e - s.error_previous) / dt
    (some (s.kp * e + s.ki * integral + s.di * derivative),
     { s with error_integral := integral, error_previous := e })

end PIDController

/-! Simulator embedding (`simulator.py`). -/

/-- A 2D vector with rational components, standing in for the numpy arrays
of `simulator.py`. -/
structure Vec2 where
  x : ℚ
  y : ℚ
deriving DecidableEq

/-- Componentwise vector addition. -/
def Vec2.add (a b : Vec2) : Vec2 := ⟨a.x + b.x, a.y + b.y⟩

/-- Multiplication of a vector by a scalar, componentwise. -/
def Vec2.smul (a : Vec2) (c : ℚ) : Vec2 := ⟨a.x * c, a.y * c⟩

/-- Division of a vector by a scalar, componentwise. -/
def Vec2.sdiv (a : Vec2) (c : ℚ) : Vec2 := ⟨a.x / c, a.y / c⟩

def FPS : ℚ := 60

def SCALE : ℚ := 2

/-- `DT = 1 / FPS * SCALE`. -/
def DT : ℚ := 1 / FPS * SCALE

/-- `GRAVITY = np.array((0, 9.8))`. -/
def GRAVITY : Vec2 := ⟨0, 49 / 5⟩

def GROUND_Y : ℚ := 550

def TARGET_Y : ℚ := 250

/-- The module-level simulation constants of `simulator.py`, generalized to
a parameter record so that scenarios with other constants (spec section 8)
can be stated against the same update function. -/
structure SimEnv where
  gravity : Vec2
  dt : ℚ
  ground_y : ℚ
deriving DecidableEq

/-- The constants as set in `simulator.py`. -/
def simEnv : SimEnv := ⟨GRAVITY, DT, GROUND_Y⟩

namespace OnOffHoverController

/-- `OnOffHoverController._error`. -/
def error (target_y rocket_y : ℚ) : ℚ := target_y - rocket_y

/-- `OnOffHoverController.tick`: 1 if the error is negative, otherwise 0. -/
def tick (target_y rocket_y : ℚ) : ℚ :=
  if error target_y rocket_y < 0 then 1 else 0

end OnOffHoverController

/-- Immutable configuration of `Rocket`: mass in kilograms and the maximum
thrust force at full burn in newtons (the stored force vector is
`(0, -max_thrust_force)`). -/
structure RocketParams where
  mass : ℚ
  max_thrust_force : ℚ
deriving DecidableEq

/-- The `Rocket` defaults, corresponding to the SpaceX Falcon 1. -/
def falconParams : RocketParams := ⟨27670, 410000⟩

/-- Kinematic state of a `Rocket`: position, velocity, and the current
thrust percent. -/
structure RocketState where
  pos : Vec2
  vel : Vec2
  thrust_percent : ℚ
deriving DecidableEq

/-- The grid `np.arange(0, 1.1, .1)` of admissible thrust percents,
modelled as the exact tenths 0, 1/10, ..., 1. -/
def thrustGrid : List ℚ := (List.range 11).map (fun i => (i : ℚ) / 10)

namespace Rocket

/-- `Rocket._set_thrust`: the assertion `percent in np.arange(0, 1.1, .1)`;
`none` models a raised AssertionError. -/
def set_thrust (percent : ℚ) : Option ℚ :=
  if percent ∈ thrustGrid then some percent else none

/-- The acceleration resolved in `Rocket.update` (lines 100-104): gravity,
plus `thrust_max_force * thrust_percent / mass` when the thrust percent is
nonzero (Python truthiness of `if self._thrust_percent:`). -/
def acc (env : SimEnv) (p : RocketParams) (thrust_percent : ℚ) : Vec2 :=
  if thrust_percent ≠ 0 then
    env.gravity.add (((⟨0, -p.max_thrust_force⟩ : Vec2).smul thrust_percent).sdiv p.mass)
  else
    env.gravity

/-- The velocity after the integration step `vel += acc * DT`. -/
def velAfter (env : SimEnv) (p : RocketParams) (thrust_percent : ℚ)
    (vel : Vec2) : Vec2 :=
  vel.add ((acc env p thrust_percent).smul env.dt)

/-- The position after the integration step `pos += vel * DT`, using the
already-updated velocity (semi-implicit Euler). -/
def posAfter (env : SimEnv) (pos vel' : Vec2) : Vec2 :=
  pos.add (vel'.smul env.dt)

/-- Lines 100-106 of `Rocket.update`: the integration step, returning the
new (position, velocity) before the ground-collision clamp. -/
def integrate (env : SimEnv) (p : RocketParams) (thrust_percent : ℚ)
    (pos vel : Vec2) : Vec2 × Vec2 :=
  (posAfter env pos (velAfter env p thrust_percent vel),
   velAfter env p thrust_percent vel)

/-- Lines 110-113 of `Rocket.update`: the one-sided ground-collision clamp.
If `pos.y >= GROUND_Y`, position.y is set to `GROUND_Y` and velocity.y to
`min(0, vel.y)`; otherwise both are left unchanged. -/
def collideGround (env : SimEnv) (pos vel : Vec2) : Vec2 × Vec2 :=
  if env.ground_y ≤ pos.y then
    (⟨pos.x, env.ground_y⟩, ⟨vel.x, min 0 vel.y⟩)
  else
    (pos, vel)

/-- Lines 100-113 of `Rocket.update`: the physics step run with a given,
already-set thrust percent. -/
def updateWith (env : SimEnv) (p : RocketParams) (thrust_percent : ℚ)
    (s : RocketState) : RocketState :=
  let iv := integrate env p thrust_percent s.pos s.vel
  let cv := collideGround env iv.1 iv.2
  ⟨cv.1, cv.2, thrust_percent⟩

/-- `Rocket.update` (lines 96-113): query the bounded hover controller,
set the thrust through the asserting `_set_thrust`, then run the physics
step; `none` models a raised AssertionError. -/
def update (env : SimEnv) (p : RocketParams) (target_y : ℚ)
    (s : RocketState) : Option RocketState :=
  match set_thrust (OnOffHoverController.tick target_y s.pos.y) with
  | none => none
  | some tp => some (updateWith env p tp s)

end Rocket

/-! Helper lemmas shared by the claim theorems. -/

/-- Closed form of `PIDController.tick` for any nonzero `dt`. -/
lemma tick_of_ne (s : PIDState) (pv dt : ℚ) (h : dt ≠ 0) :
    PIDController.tick s pv dt =
      (some (s.kp * (s.setpoint - pv)
             + s.ki * (s.error_integral + (s.setpoint - pv) * dt)
             + s.di * ((s.setpoint - pv - s.error_previous) / dt)),
       ⟨s.setpoint, s.kp, s.ki, s.di, s.setpoint - pv,
        s.error_integral + (s.setpoint - pv) * dt⟩) := by
  simp [PIDController.tick, Controller.error, h]

/-- When the integrated position has reached the ground, `updateWith`
clamps the position to the ground line and the downward velocity to 0. -/
lemma updateWith_of_ge (env : SimEnv) (p : RocketParams) (tp : ℚ)
    (s : RocketState)
    (h : env.ground_y ≤ (Rocket.integrate env p tp s.pos s.vel).1.y) :
    Rocket.updateWith env p tp s =
      ⟨⟨(Rocket.integrate env p tp s.pos s.vel).1.x, env.ground_y⟩,
       ⟨(Rocket.integrate env p tp s.pos s.vel).2.x,
        min 0 (Rocket.integrate env p tp s.pos s.vel).2.y⟩, tp⟩ := by
  simp [Rocket.updateWith, Rocket.collideGround, h]

/-- When the integrated position is still above the ground, `updateWith`
is exactly the integration step. -/
lemma updateWith_of_lt (env : SimEnv) (p : RocketParams) (tp : ℚ)
    (s : RocketState)
    (h : (Rocket.integrate env p tp s.pos s.vel).1.y < env.ground_y) :
    Rocket.updateWith env p tp s =
      ⟨(Rocket.integrate env p tp s.pos s.vel).1,
       (Rocket.integrate env p tp s.pos s.vel).2, tp⟩ := by
  simp [Rocket.updateWith, Rocket.collideGround, not_le.mpr h]

/-- With zero thrust the integration step is pure gravity. -/
lemma integrate_zero_thrust (env : SimEnv) (p : RocketParams)
    (pos vel : Vec2) :
    Rocket.integrate env p 0 pos vel =
      (⟨pos.x + (vel.x + env.gravity.x * env.dt) * env.dt,
        pos.y + (vel.y + env.gravity.y * env.dt) * env.dt⟩,
       ⟨vel.x + env.gravity.x * env.dt, vel.y + env.gravity.y * env.dt⟩) := by
  simp [Rocket.integrate, Rocket.posAfter, Rocket.velAfter, Rocket.acc,
    Vec2.add, Vec2.smul]

/-! Claim theorems for the controllers. -/

/-- Claim C2: for every PID controller state, every measured value and every
`dt > 0`, `tick` computes `error = setpoint - measured`, adds `error * dt`
to the integral accumulator, computes `derivative = (error - error_previous)
/ dt`, stores `error` into `error_previous`, and returns `kp*error +
ki*error_integral + kd*derivative` where the `error_integral` in the sum is
the already-updated accumulator. -/
theorem pid_tick_spec (s : PIDState) (pv dt : ℚ) (h : 0 < dt) :
    PIDController.tick s pv dt =
      (some (s.kp * (s.setpoint - pv)
             + s.ki * (s.error_integral + (s.setpoint - pv) * dt)
             + s.di * ((s.setpoint - pv - s.error_previous) / dt)),
       ⟨s.setpoint, s.kp, s.ki, s.di, s.setpoint - pv,
        s.error_integral + (s.setpoint - pv) * dt⟩) :=
  tick_of_ne s pv dt (ne_of_gt h)

/-- Witness for C2 at setpoint 10, measured 2, dt 1: error 8, integral
5 + 8 = 13, derivative (8 - 4) / 1 = 4, output 1*8 + 2*13 + 3*4 = 46. -/
theorem pid_tick_spec_witness :
    PIDController.tick ⟨10, 1, 2, 3, 4, 5⟩ 2 1 = (some 46, ⟨10, 1, 2, 3, 8, 13⟩) := by
  have h := pid_tick_spec ⟨10, 1, 2, 3, 4, 5⟩ 2 1 (by norm_num)
  rw [h]
  norm_num

/-- Claim C5 (failing input): at exactly zero error the unbounded on-off
controller returns NaN (`np.inf * 0`), not a defined zero signal. -/
theorem onoff_unbounded_zero_error_nan :
    OnOffController.tick 5 5 = Signal.nan ∧ Signal.nan ≠ Signal.finite 0 := by
  refine ⟨?_, by simp⟩
  norm_num [OnOffController.tick, Controller.error, infMul]

/-- Claim C7 (counterexample): with `dt = -1 < 0` the PID tick silently
returns a result instead of failing. Setpoint 10, measured 2, weights
(1, 1, 1), clean accumulators: output 8 + (-8) + (-8) = -8. -/
theorem pid_negative_dt_counterexample :
    (-1 : ℚ) < 0 ∧
    (PIDController.tick ⟨10, 1, 1, 1, 0, 0⟩ 2 (-1)).1 = some (-8) := by
  refine ⟨by norm_num, ?_⟩
  rw [tick_of_ne ⟨10, 1, 1, 1, 0, 0⟩ 2 (-1) (by norm_num)]
  norm_num

/-- Claim C7 (amended): `PIDController.tick` fails loudly exactly when
`dt = 0` (ZeroDivisionError at the derivative division); for any nonzero
`dt`, negative included, it silently returns a result. -/
theorem pid_dt_failure (s : PIDState) (pv dt : ℚ) :
    (PIDController.tick s pv dt).1 = none ↔ dt = 0 := by
  by_cases h : dt = 0 <;> simp [PIDController.tick, h]

/-- Claim C9: when `tick` is called with `dt = 0`, the derivative division
fails and the observable state at the point of failure equals the pre-call
state: the integral gained `error * 0 = 0` and `error_previous` was never
assigned. -/
theorem pid_dt_zero_atomic (s : PIDState) (pv : ℚ) :
    PIDController.tick s pv 0 = (none, s) := by
  cases s
  simp [PIDController.tick, Controller.error]

/-- Claim C8 (counterexample): with ki = 1 ≠ 0 but zero error (measured =
setpoint) and kd = 0, two consecutive identical ticks return the same
output. -/
theorem pid_statefulness_counterexample :
    (⟨0, 1, 1, 0, 0, 0⟩ : PIDState).ki ≠ 0 ∧
    (PIDController.tick (PIDController.tick ⟨0, 1, 1, 0, 0, 0⟩ 0 1).2 0 1).1
      = (PIDController.tick ⟨0, 1, 1, 0, 0, 0⟩ 0 1).1 := by
  refine ⟨by norm_num, ?_⟩
  rw [tick_of_ne ⟨0, 1, 1, 0, 0, 0⟩ 0 1 (by norm_num)]
  norm_num [PIDController.tick, Controller.error]

/-- Claim C8 (amended): for `dt ≠ 0`, two consecutive calls of `tick` with
identical inputs yield different outputs exactly when
`ki * error * dt^2 ≠ kd * (error - error_previous)`, with `error =
setpoint - x` and `error_previous` the value stored before the first call;
`ki ≠ 0` or `kd ≠ 0` alone does not suffice. -/
theorem pid_statefulness (s : PIDState) (x dt : ℚ) (h : dt ≠ 0) :
    ((PIDController.tick (PIDController.tick s x dt).2 x dt).1
      ≠ (PIDController.tick s x dt).1) ↔
    s.ki * (s.setpoint - x) * dt * dt
      ≠ s.di * (s.setpoint - x - s.error_previous) := by
  rw [tick_of_ne s x dt h]
  rw [show ((some (s.kp * (s.setpoint - x)
             + s.ki * (s.error_integral + (s.setpoint - x) * dt)
             + s.di * ((s.setpoint - x - s.error_previous) / dt)),
       (⟨s.setpoint, s.kp, s.ki, s.di, s.setpoint - x,
        s.error_integral + (s.setpoint - x) * dt⟩ : PIDState))).2
      = (⟨s.setpoint, s.kp, s.ki, s.di, s.setpoint - x,
        s.error_integral + (s.setpoint - x) * dt⟩ : PIDState) from rfl]
  rw [tick_of_ne ⟨s.setpoint, s.kp, s.ki, s.di, s.setpoint - x,
        s.error_integral + (s.setpoint - x) * dt⟩ x dt h]
  simp only [ne_eq, Option.some.injEq, Prod.fst, not_iff_not]
  rw [sub_self, zero_div, mul_zero, add_zero]
  rw [← sub_eq_zero]
  have key : (s.kp * (s.setpoint - x)
        + s.ki * (s.error_integral + (s.setpoint - x) * dt + (s.setpoint - x) * dt))
      - (s.kp * (s.setpoint - x) + s.ki * (s.error_integral + (s.setpoint - x) * dt)
         + s.di * ((s.setpoint - x - s.error_previous) / dt))
      = (s.ki * (s.setpoint - x) * dt * dt
         - s.di * (s.setpoint - x - s.error_previous)) / dt := by
    field_simp
    ring
  rw [key, div_eq_zero_iff]
  simp [h, sub_eq_zero]

/-- Witness for C8 (amended) at setpoint 1, measured 0, dt 1, weights
kp = ki = 1, kd = 0: the stated condition holds and the outputs differ. -/
theorem pid_statefulness_witness :
    (PIDController.tick (PIDController.tick ⟨1, 1, 1, 0, 0, 0⟩ 0 1).2 0 1).1
      ≠ (PIDController.tick ⟨1, 1, 1, 0, 0, 0⟩ 0 1).1 :=
  (pid_statefulness ⟨1, 1, 1, 0, 0, 0⟩ 0 1 (by norm_num)).mpr (by norm_num)

/-! Additional helper lemmas for the simulator claims. -/

/-- 0 is an admissible thrust percent. -/
lemma zero_mem_thrustGrid : (0 : ℚ) ∈ thrustGrid := by
  norm_num [thrustGrid, List.range_succ]

/-- 1 is an admissible thrust percent. -/
lemma one_mem_thrustGrid : (1 : ℚ) ∈ thrustGrid := by
  norm_num [thrustGrid, List.range_succ]

/-- `_set_thrust` accepts 0. -/
lemma set_thrust_zero : Rocket.set_thrust 0 = some 0 := by
  simp [Rocket.set_thrust, zero_mem_thrustGrid]

/-- `_set_thrust` accepts 1. -/
lemma set_thrust_one : Rocket.set_thrust 1 = some 1 := by
  simp [Rocket.set_thrust, one_mem_thrustGrid]

/-- Resting on the ground with at most one tick of gravity's worth of
upward velocity and zero thrust, a single physics step returns the rocket
to the ground line with zero vertical velocity. -/
lemma ground_step (p : RocketParams) (s : RocketState)
    (hpos : s.pos.y = GROUND_Y) (hvel : -(GRAVITY.y * DT) ≤ s.vel.y) :
    (Rocket.updateWith simEnv p 0 s).pos.y = GROUND_Y ∧
    (Rocket.updateWith simEnv p 0 s).vel.y = 0 := by
  have hg : GRAVITY.y * DT = 49 / 150 := by norm_num [GRAVITY, DT, FPS, SCALE]
  have hvy : (0 : ℚ) ≤ s.vel.y + 49 / 150 := by
    rw [hg] at hvel
    linarith
  have h1 : (Rocket.integrate simEnv p 0 s.pos s.vel).1.y
      = s.pos.y + (s.vel.y + 49 / 150) * (1 / 30) := by
    rw [integrate_zero_thrust]
    norm_num [simEnv, GRAVITY, DT, FPS, SCALE]
  have h2 : (Rocket.integrate simEnv p 0 s.pos s.vel).2.y
      = s.vel.y + 49 / 150 := by
    rw [integrate_zero_thrust]
    norm_num [simEnv, GRAVITY, DT, FPS, SCALE]
  have hge : simEnv.ground_y ≤ (Rocket.integrate simEnv p 0 s.pos s.vel).1.y := by
    rw [h1, hpos]
    have hstep : (0 : ℚ) ≤ (s.vel.y + 49 / 150) * (1 / 30) :=
      mul_nonneg hvy (by norm_num)
    simp only [simEnv, GROUND_Y]
    linarith
  rw [updateWith_of_ge simEnv p 0 s hge]
  refine ⟨rfl, ?_⟩
  show min 0 (Rocket.integrate simEnv p 0 s.pos s.vel).2.y = 0
  rw [h2]
  exact min_eq_left hvy

/-- Iterated form of `ground_step`. -/
lemma ground_iter (p : RocketParams) (s : RocketState)
    (hpos : s.pos.y = GROUND_Y) (hvel : -(GRAVITY.y * DT) ≤ s.vel.y) :
    ∀ n : ℕ, 1 ≤ n →
      ((Rocket.updateWith simEnv p 0)^[n] s).pos.y = GROUND_Y ∧
      ((Rocket.updateWith simEnv p 0)^[n] s).vel.y = 0 := by
  intro n hn
  induction n with
  | zero => omega
  | succ k ih =>
    rw [Function.iterate_succ_apply']
    rcases Nat.eq_zero_or_pos k with hk | hk
    · subst hk
      simp only [Function.iterate_zero, id_eq]
      exact ground_step p s hpos hvel
    · obtain ⟨h1, h2⟩ := ih hk
      refine ground_step p _ h1 ?_
      rw [h2]
      norm_num [GRAVITY, DT, FPS, SCALE]

/-! Claim theorems for the simulator. -/

/-- Claim C1: in `Rocket.update`, whenever the integrated position.y has
reached or passed GROUND_Y, the post-update position.y equals GROUND_Y
exactly (never overshooting past it) and the post-update velocity.y is
`min(0, vel.y)` of the integrated velocity — clamping only the downward
component — for every pre-update state, parameter set and tick. -/
theorem ground_clamp_exact (env : SimEnv) (p : RocketParams) (tp : ℚ)
    (s : RocketState)
    (h : env.ground_y ≤ (Rocket.integrate env p tp s.pos s.vel).1.y) :
    (Rocket.updateWith env p tp s).pos.y = env.ground_y ∧
    (Rocket.updateWith env p tp s).vel.y
      = min 0 (Rocket.integrate env p tp s.pos s.vel).2.y ∧
    (Rocket.updateWith env p tp s).pos.y ≤ env.ground_y := by
  rw [updateWith_of_ge env p tp s h]
  exact ⟨rfl, rfl, le_refl _⟩

/-- Witness for C1: the Falcon defaults, zero thrust, starting at rest on
the ground line; the integrated position passes GROUND_Y and is clamped. -/
theorem ground_clamp_exact_witness :
    (Rocket.updateWith simEnv falconParams 0 ⟨⟨400, 550⟩, ⟨0, 0⟩, 0⟩).pos.y
        = simEnv.ground_y ∧
    (Rocket.updateWith simEnv falconParams 0 ⟨⟨400, 550⟩, ⟨0, 0⟩, 0⟩).vel.y
        = min 0 (Rocket.integrate simEnv falconParams 0
            (⟨⟨400, 550⟩, ⟨0, 0⟩, 0⟩ : RocketState).pos
            (⟨⟨400, 550⟩, ⟨0, 0⟩, 0⟩ : RocketState).vel).2.y ∧
    (Rocket.updateWith simEnv falconParams 0 ⟨⟨400, 550⟩, ⟨0, 0⟩, 0⟩).pos.y
        ≤ simEnv.ground_y :=
  ground_clamp_exact simEnv falconParams 0 ⟨⟨400, 550⟩, ⟨0, 0⟩, 0⟩ (by
    rw [integrate_zero_thrust]
    norm_num [simEnv, GRAVITY, DT, FPS, SCALE, GROUND_Y])

/-- Claim C3 (counterexample): with setpoint 250 and measured value 0
(measured < setpoint) the bounded hover controller returns signal 0,
not 1 as the claim states. -/
theorem onoff_hover_sign_counterexample :
    (0 : ℚ) < 250 ∧ OnOffHoverController.tick 250 0 = 0 ∧ (0 : ℚ) ≠ 1 := by
  refine ⟨by norm_num, ?_, by norm_num⟩
  norm_num [OnOffHoverController.tick, OnOffHoverController.error]

/-- Claim C3 (amended): the bounded hover controller's sign law is the
inverse of the claim: for all measured_value > setpoint the signal is 1
(in the y-grows-downward pixel frame the rocket is below the target), and
for all measured_value ≤ setpoint — in particular for measured_value <
setpoint — the signal is 0. -/
theorem onoff_hover_sign_law (target_y rocket_y : ℚ) :
    (target_y < rocket_y → OnOffHoverController.tick target_y rocket_y = 1) ∧
    (rocket_y ≤ target_y → OnOffHoverController.tick target_y rocket_y = 0) := by
  unfold OnOffHoverController.tick OnOffHoverController.error
  constructor
  · intro h
    rw [if_pos (by linarith)]
  · intro h
    rw [if_neg (not_lt.mpr (by linarith))]

/-- Witness for C3 (amended) at target 250: measured 300 gives signal 1,
measured 100 gives signal 0. -/
theorem onoff_hover_sign_law_witness :
    OnOffHoverController.tick 250 300 = 1 ∧
    OnOffHoverController.tick 250 100 = 0 :=
  ⟨(onoff_hover_sign_law 250 300).1 (by norm_num),
   (onoff_hover_sign_law 250 100).2 (by norm_num)⟩

/-- Claim C4: starting at position (0, 0) with GROUND_Y 100, gravity
(0, 9.8), dt 0.1, mass 1, maximum thrust force (0, -20) and the bounded
hover controller targeting 50, one update gives thrust percent 0,
velocity.y = 0.98 = 49/50 and position.y = 0.098 = 49/500, exactly in
rational arithmetic. -/
theorem scenario_tick1 :
    Rocket.update ⟨⟨0, 49/5⟩, 1/10, 100⟩ ⟨1, 20⟩ 50 ⟨⟨0, 0⟩, ⟨0, 0⟩, 0⟩
      = some ⟨⟨0, 49/500⟩, ⟨0, 49/50⟩, 0⟩ := by
  have htick : OnOffHoverController.tick 50
      (⟨⟨0, 0⟩, ⟨0, 0⟩, 0⟩ : RocketState).pos.y = 0 := by
    norm_num [OnOffHoverController.tick, OnOffHoverController.error]
  simp only [Rocket.update, htick, set_thrust_zero]
  rw [updateWith_of_lt _ _ _ _ (by
    rw [integrate_zero_thrust]
    norm_num)]
  rw [integrate_zero_thrust]
  norm_num

/-- Claim C6 (counterexample): a state resting exactly on the ground line
but carrying a large upward velocity leaves the ground in one zero-thrust
tick, so position.y does not stay at GROUND_Y for every such state. -/
theorem ground_clamp_idempotent_counterexample :
    (⟨⟨400, 550⟩, ⟨0, -100⟩, 0⟩ : RocketState).pos.y = GROUND_Y ∧
    (Rocket.updateWith simEnv falconParams 0
        ⟨⟨400, 550⟩, ⟨0, -100⟩, 0⟩).pos.y ≠ GROUND_Y := by
  refine ⟨by norm_num [GROUND_Y], ?_⟩
  rw [updateWith_of_lt _ _ _ _ (by
    rw [integrate_zero_thrust]
    norm_num [simEnv, GRAVITY, DT, FPS, SCALE, GROUND_Y])]
  rw [integrate_zero_thrust]
  norm_num [simEnv, GRAVITY, DT, FPS, SCALE, GROUND_Y]

/-- Claim C6 (amended): once position.y = GROUND_Y with at most one tick of
gravity's worth of upward velocity (velocity.y ≥ -GRAVITY.y * DT; in
particular any grounded state with velocity.y between -GRAVITY.y * DT and
0), holding the thrust percent at 0 keeps position.y = GROUND_Y and
velocity.y ≤ 0 after every subsequent tick. -/
theorem ground_clamp_idempotent (p : RocketParams) (s : RocketState)
    (n : ℕ) (hpos : s.pos.y = GROUND_Y)
    (hvel : -(GRAVITY.y * DT) ≤ s.vel.y) (hn : 1 ≤ n) :
    ((Rocket.updateWith simEnv p 0)^[n] s).pos.y = GROUND_Y ∧
    ((Rocket.updateWith simEnv p 0)^[n] s).vel.y ≤ 0 := by
  obtain ⟨h1, h2⟩ := ground_iter p s hpos hvel n hn
  exact ⟨h1, le_of_eq h2⟩

/-- Witness for C6 (amended): the Falcon defaults at rest on the ground,
two zero-thrust ticks. -/
theorem ground_clamp_idempotent_witness :
    ((Rocket.updateWith simEnv falconParams 0)^[2]
        ⟨⟨400, 550⟩, ⟨0, 0⟩, 0⟩).pos.y = GROUND_Y ∧
    ((Rocket.updateWith simEnv falconParams 0)^[2]
        ⟨⟨400, 550⟩, ⟨0, 0⟩, 0⟩).vel.y ≤ 0 :=
  ground_clamp_idempotent falconParams ⟨⟨400, 550⟩, ⟨0, 0⟩, 0⟩ 2
    (by norm_num [GROUND_Y])
    (by norm_num [GRAVITY, DT, FPS, SCALE])
    (by norm_num)

/-- Claim C10: composed with the bounded hover controller, `Rocket.update`
always succeeds — the membership assertion in `_set_thrust` never fails —
and the post-update thrust percent is exactly 0 or 1, a subset of the
admissible grid. -/
theorem thrust_stays_binary (env : SimEnv) (p : RocketParams)
    (target_y : ℚ) (s : RocketState) :
    ∃ s', Rocket.update env p target_y s = some s' ∧
      (s'.thrust_percent = 0 ∨ s'.thrust_percent = 1) ∧
      s'.thrust_percent ∈ thrustGrid := by
  by_cases h : OnOffHoverController.error target_y s.pos.y < 0
  · have ht : OnOffHoverController.tick target_y s.pos.y = 1 := by
      simp [OnOffHoverController.tick, h]
    refine ⟨Rocket.updateWith env p 1 s, ?_, Or.inr rfl, ?_⟩
    · simp [Rocket.update, ht, set_thrust_one]
    · exact one_mem_thrustGrid
  · have ht : OnOffHoverController.tick target_y s.pos.y = 0 := by
      simp [OnOffHoverController.tick, h]
    refine ⟨Rocket.updateWith env p 0 s, ?_, Or.inl rfl, ?_⟩
    · simp [Rocket.update, ht, set_thrust_zero]
    · exact zero_mem_thrustGrid

end Rockets
